import Mathlib

/-!
Verification of the AST evaluator of the mamba scripting language
(`interpreter/ast.py`).

The evaluator is embedded shallowly: each AST node class becomes a
constructor of `Node`, Python runtime objects become `PyObj`, the
process-global `SymbolTable` plus standard output become an explicit
state record `St` threaded through evaluation, and exceptions become an
explicit error outcome `Exc`.  Evaluation (`evalNode`) is fuel-indexed
because `while` loops, `full_eval` chains and recursive function calls
need not terminate; running out of fuel yields the distinguished
outcome `ERes.div`.

The source of `interpreter/symbol_table.py` and
`interpreter/exceptions.py` is not part of the repository snapshot, so
the scope store operations (`getsym`, `setsym`, `getfunc`, `setfunc`,
`set_local`) and the error taxonomy are modelled from the
specification; every such definition carries a doc comment saying so.
Everything else is translated directly from `interpreter/ast.py`.
-/

/-- Constant values wrapped by the `Primitive` node (`Primitive.value`
in the source): the parser produces numbers, strings and booleans. -/
inductive Prim where
  | pInt (i : Int)
  | pFloat (q : Rat)
  | pStr (s : String)
  | pBool (b : Bool)
deriving DecidableEq, Repr

/-- The AST node kinds of `interpreter/ast.py`.  Each constructor
corresponds to one class with an `eval` method.  The `Array`,
`ArrayAccess`, `ArrayAssign` and `UnaryOperation` classes are not
needed by any verified claim and are omitted from the embedding.
`builtinFunction` stands for `BuiltInFunction`; its host callable is
represented by an index into the `hostFunctions` table. -/
inductive Node where
  | exitStatement
  | returnStatement (expr : Node)
  | primitive (value : Prim)
  | identifier (isFunction : Bool) (name : String)
  | assignment (target : Node) (val : Node)
  | binaryOperation (left : Node) (right : Node) (op : String)
  | compoundOperation (target : Node) (modifier : Node) (operation : String)
  | ifStmt (condition : Node) (truepart : List Node) (elsepart : Option Node)
  | instrList (children : List Node)
  | forLoop (var : Node) (start : Node) (stop : Node) (asc : Bool) (body : List Node)
  | whileLoop (condition : Node) (body : List Node)
  | printStatement (items : List Node)
  | functionCall (name : Node) (params : List Node)
  | function (params : List Node) (body : List Node)
  | builtinFunction (fid : Nat)

/-- A Python runtime object as produced by the `eval` methods: a
number (`int`/`float`), text, boolean, list (both arrays and the
result list of `InstructionList.eval`), an AST node instance (exit
signals, function definitions, ...), or `None`.  Python floats are
modelled as rationals. -/
inductive PyObj where
  | intV (i : Int)
  | floatV (q : Rat)
  | strV (s : String)
  | boolV (b : Bool)
  | listV (xs : List PyObj)
  | node (n : Node)
  | none

/-- Modelled from the spec: the exception kinds that can escape
evaluation.  `interpreterRuntimeError` is the single interpreter error
of `interpreter/exceptions.py` (raised with a message);
`undefinedSymbol` is the scope-store lookup failure; the rest are host
(Python) exceptions that the interpreter never catches. -/
inductive Exc where
  | interpreterRuntimeError (msg : String)
  | undefinedSymbol (name : String)
  | typeError
  | zeroDivisionError
  | keyError
  | attributeError
deriving DecidableEq, Repr

/-- Host exceptions that applying a Python operator can raise.  Only
`TypeError` is caught by `BinaryOperation.eval` / `CompoundOperation.eval`. -/
inductive PyExc where
  | typeError
  | zeroDivisionError
deriving DecidableEq, Repr

def hostExc : PyExc → Exc
  | PyExc.typeError => Exc.typeError
  | PyExc.zeroDivisionError => Exc.zeroDivisionError

/-- Modelled from the spec: the scope store of
`interpreter/symbol_table.py` (missing from the snapshot), plus the
standard-output stream written by `PrintStatement.eval`.  The store
has a variable namespace and a separate function namespace, each with
a global partition and a single local partition, and one `isLocal`
flag toggled by `set_local`.  The process-global `symbols` object of
the source is made an explicit state value. -/
structure St where
  globals : List (String × PyObj)
  locals : List (String × PyObj)
  funcsGlobal : List (String × PyObj)
  funcsLocal : List (String × PyObj)
  isLocal : Bool
  out : String

/-- First-match association-list lookup. -/
def lookupA : List (String × PyObj) → String → Option PyObj
  | [], _ => Option.none
  | (k, v) :: rest, n => if k = n then some v else lookupA rest n

/-- Modelled from the spec: variable lookup.  In local mode the local
partition is consulted first, falling back to the global partition;
otherwise only the global partition.  An unbound name fails with
`undefinedSymbol`. -/
def getsym (s : St) (n : String) : Except Exc PyObj :=
  if s.isLocal then
    match lookupA s.locals n with
    | some v => Except.ok v
    | Option.none =>
      match lookupA s.globals n with
      | some v => Except.ok v
      | Option.none => Except.error (Exc.undefinedSymbol n)
  else
    match lookupA s.globals n with
    | some v => Except.ok v
    | Option.none => Except.error (Exc.undefinedSymbol n)

/-- Modelled from the spec: variable binding, written to the local
partition while local mode is on and to the global partition
otherwise. -/
def setsym (s : St) (n : String) (v : PyObj) : St :=
  if s.isLocal then { s with locals := (n, v) :: s.locals }
  else { s with globals := (n, v) :: s.globals }

/-- Modelled from the spec: function-namespace lookup, same
partition discipline as `getsym`. -/
def getfunc (s : St) (n : String) : Except Exc PyObj :=
  if s.isLocal then
    match lookupA s.funcsLocal n with
    | some v => Except.ok v
    | Option.none =>
      match lookupA s.funcsGlobal n with
      | some v => Except.ok v
      | Option.none => Except.error (Exc.undefinedSymbol n)
  else
    match lookupA s.funcsGlobal n with
    | some v => Except.ok v
    | Option.none => Except.error (Exc.undefinedSymbol n)

/-- Modelled from the spec: function-namespace binding, same
partition discipline as `setsym`. -/
def setfunc (s : St) (n : String) (v : PyObj) : St :=
  if s.isLocal then { s with funcsLocal := (n, v) :: s.funcsLocal }
  else { s with funcsGlobal := (n, v) :: s.funcsGlobal }

/-- Modelled from the spec: toggling local scope mode on or off. -/
def set_local (s : St) (b : Bool) : St := { s with isLocal := b }

/-- `isinstance(n, ExitStatement)`: `ReturnStatement` subclasses
`ExitStatement`. -/
def isExitNode : Node → Bool
  | Node.exitStatement => true
  | Node.returnStatement _ => true
  | _ => false

/-- Whether an eval result is an `ExitStatement` instance. -/
def isExitObj : PyObj → Bool
  | PyObj.node n => isExitNode n
  | _ => false

/-- Whether an eval result is Python `None`. -/
def isNoneObj : PyObj → Bool
  | PyObj.none => true
  | _ => false

/-- Python truthiness, used by `If.eval` and `While.eval`. -/
def truthy : PyObj → Bool
  | PyObj.intV i => i != 0
  | PyObj.floatV q => q != 0
  | PyObj.strV s => s ≠ ""
  | PyObj.boolV b => b
  | PyObj.listV xs => !xs.isEmpty
  | PyObj.node _ => true
  | PyObj.none => false

/-- Numeric view of an object: `bool` counts as an integer in Python
arithmetic.  Returns (is-float, numeric value). -/
def asNum : PyObj → Option (Bool × Rat)
  | PyObj.intV i => some (false, (i : Rat))
  | PyObj.boolV b => some (false, if b then 1 else 0)
  | PyObj.floatV q => some (true, q)
  | _ => Option.none

/-- Integer view of an object (`bool` counts), used for bitwise
operators, sequence repetition and `range` arguments. -/
def asIndex : PyObj → Option Int
  | PyObj.intV i => some i
  | PyObj.boolV b => some (if b then 1 else 0)
  | _ => Option.none

/-- Package a numeric result: a float if either operand was a float,
an int otherwise (the rational is integral in that case). -/
def mkNum (isFloat : Bool) (q : Rat) : PyObj :=
  if isFloat then PyObj.floatV q else PyObj.intV q.num

def strRepeat (s : String) : Nat → String
  | 0 => ""
  | n + 1 => s ++ strRepeat s n

def listRepeat (xs : List PyObj) : Nat → List PyObj
  | 0 => []
  | n + 1 => xs ++ listRepeat xs n

/-- `operator.add`: numeric addition (with int/float/bool dispatch),
string and list concatenation; anything else raises `TypeError`. -/
def pyAdd : PyObj → PyObj → Except PyExc PyObj
  | PyObj.intV a, PyObj.intV b => Except.ok (PyObj.intV (a + b))
  | PyObj.strV a, PyObj.strV b => Except.ok (PyObj.strV (a ++ b))
  | PyObj.listV a, PyObj.listV b => Except.ok (PyObj.listV (a ++ b))
  | l, r =>
    match asNum l, asNum r with
    | some (f1, x), some (f2, y) => Except.ok (mkNum (f1 || f2) (x + y))
    | _, _ => Except.error PyExc.typeError

/-- `operator.sub`: numeric only. -/
def pySub : PyObj → PyObj → Except PyExc PyObj
  | PyObj.intV a, PyObj.intV b => Except.ok (PyObj.intV (a - b))
  | l, r =>
    match asNum l, asNum r with
    | some (f1, x), some (f2, y) => Except.ok (mkNum (f1 || f2) (x - y))
    | _, _ => Except.error PyExc.typeError

/-- `operator.mul`: numeric multiplication, plus string/list
repetition by an integer (negative counts give the empty result). -/
def pyMul : PyObj → PyObj → Except PyExc PyObj
  | PyObj.intV a, PyObj.intV b => Except.ok (PyObj.intV (a * b))
  | PyObj.strV a, r =>
    match asIndex r with
    | some n => Except.ok (PyObj.strV (strRepeat a n.toNat))
    | Option.none => Except.error PyExc.typeError
  | l, PyObj.strV b =>
    match asIndex l with
    | some n => Except.ok (PyObj.strV (strRepeat b n.toNat))
    | Option.none => Except.error PyExc.typeError
  | PyObj.listV a, r =>
    match asIndex r with
    | some n => Except.ok (PyObj.listV (listRepeat a n.toNat))
    | Option.none => Except.error PyExc.typeError
  | l, PyObj.listV b =>
    match asIndex l with
    | some n => Except.ok (PyObj.listV (listRepeat b n.toNat))
    | Option.none => Except.error PyExc.typeError
  | l, r =>
    match asNum l, asNum r with
    | some (f1, x), some (f2, y) => Except.ok (mkNum (f1 || f2) (x * y))
    | _, _ => Except.error PyExc.typeError

/-- `operator.pow` on numbers.  A negative integer exponent yields a
float (`ZeroDivisionError` on zero base).  Fractional exponents, whose
host result is an irrational float, are outside the rational value
model and are not modelled. -/
def pyPow (l r : PyObj) : Except PyExc PyObj :=
  match asNum l, asNum r with
  | some (f1, x), some (f2, y) =>
    if y.den = 1 then
      if 0 ≤ y.num then Except.ok (mkNum (f1 || f2) (x ^ y.num.toNat))
      else if x = 0 then Except.error PyExc.zeroDivisionError
      else Except.ok (PyObj.floatV ((x ^ (-y.num).toNat)⁻¹))
    else Except.error PyExc.typeError
  | _, _ => Except.error PyExc.typeError

/-- `operator.truediv`: true division, always a float; division by
zero raises `ZeroDivisionError`. -/
def pyDiv (l r : PyObj) : Except PyExc PyObj :=
  match asNum l, asNum r with
  | some (_, x), some (_, y) =>
    if y = 0 then Except.error PyExc.zeroDivisionError
    else Except.ok (PyObj.floatV (x / y))
  | _, _ => Except.error PyExc.typeError

/-- `operator.mod` on numbers: Python's floor-sign modulo
`x - y * floor(x / y)`; modulo by zero raises `ZeroDivisionError`.
Printf-style `str % value` formatting is outside the modelled scope. -/
def pyMod (l r : PyObj) : Except PyExc PyObj :=
  match asNum l, asNum r with
  | some (f1, x), some (f2, y) =>
    if y = 0 then Except.error PyExc.zeroDivisionError
    else Except.ok (mkNum (f1 || f2) (x - y * (Rat.floor (x / y) : Rat)))
  | _, _ => Except.error PyExc.typeError

mutual

/-- Structural equality of nodes (the host compares object identity;
nodes are immutable trees here, so structural equality stands in). -/
def nodeEq : Node → Node → Bool
  | Node.exitStatement, Node.exitStatement => true
  | Node.returnStatement a, Node.returnStatement b => nodeEq a b
  | Node.primitive a, Node.primitive b => decide (a = b)
  | Node.identifier fa na, Node.identifier fb nb => fa == fb && na == nb
  | Node.assignment ta va, Node.assignment tb vb => nodeEq ta tb && nodeEq va vb
  | Node.binaryOperation la ra oa, Node.binaryOperation lb rb ob =>
    nodeEq la lb && nodeEq ra rb && oa == ob
  | Node.compoundOperation ta ma oa, Node.compoundOperation tb mb ob =>
    nodeEq ta tb && nodeEq ma mb && oa == ob
  | Node.ifStmt ca ta ea, Node.ifStmt cb tb eb =>
    nodeEq ca cb && nodeListEq ta tb && nodeOptEq ea eb
  | Node.instrList a, Node.instrList b => nodeListEq a b
  | Node.forLoop va sa ea aa ba, Node.forLoop vb sb eb ab bb =>
    nodeEq va vb && nodeEq sa sb && nodeEq ea eb && aa == ab && nodeListEq ba bb
  | Node.whileLoop ca ba, Node.whileLoop cb bb => nodeEq ca cb && nodeListEq ba bb
  | Node.printStatement a, Node.printStatement b => nodeListEq a b
  | Node.functionCall na pa, Node.functionCall nb pb => nodeEq na nb && nodeListEq pa pb
  | Node.function pa ba, Node.function pb bb => nodeListEq pa pb && nodeListEq ba bb
  | Node.builtinFunction a, Node.builtinFunction b => a == b
  | _, _ => false

def nodeListEq : List Node → List Node → Bool
  | [], [] => true
  | a :: as_, b :: bs => nodeEq a b && nodeListEq as_ bs
  | _, _ => false

def nodeOptEq : Option Node → Option Node → Bool
  | Option.none, Option.none => true
  | some a, some b => nodeEq a b
  | _, _ => false

end

mutual

/-- Python `==`: numeric cross-type comparison, structural on strings
and lists, `None == None`; distinct types are unequal, never an
error.  Host object equality is identity-based; AST nodes are
immutable here and compared structurally. -/
def pyEq (l r : PyObj) : Bool :=
  match l, r with
  | PyObj.strV a, PyObj.strV b => a == b
  | PyObj.listV a, PyObj.listV b => pyEqList a b
  | PyObj.node a, PyObj.node b => nodeEq a b
  | PyObj.none, PyObj.none => true
  | l, r =>
    match asNum l, asNum r with
    | some (_, x), some (_, y) => x == y
    | _, _ => false

def pyEqList : List PyObj → List PyObj → Bool
  | [], [] => true
  | a :: as_, b :: bs => pyEq a b && pyEqList as_ bs
  | _, _ => false

end

/-- `operator.lt`: numeric or string ordering; mixing other types
raises `TypeError`. -/
def pyLt (l r : PyObj) : Except PyExc Bool :=
  match l, r with
  | PyObj.strV a, PyObj.strV b => Except.ok (decide (a < b))
  | l, r =>
    match asNum l, asNum r with
    | some (_, x), some (_, y) => Except.ok (decide (x < y))
    | _, _ => Except.error PyExc.typeError

/-- `operator.le`: numeric or string ordering. -/
def pyLe (l r : PyObj) : Except PyExc Bool :=
  match l, r with
  | PyObj.strV a, PyObj.strV b => Except.ok (decide (a ≤ b))
  | l, r =>
    match asNum l, asNum r with
    | some (_, x), some (_, y) => Except.ok (decide (x ≤ y))
    | _, _ => Except.error PyExc.typeError

/-- `operator.and_` (`&`): boolean conjunction on two bools, bitwise
AND on integers (bools coerce); other types raise `TypeError`. -/
def pyAnd (l r : PyObj) : Except PyExc PyObj :=
  match l, r with
  | PyObj.boolV a, PyObj.boolV b => Except.ok (PyObj.boolV (a && b))
  | l, r =>
    match asIndex l, asIndex r with
    | some x, some y => Except.ok (PyObj.intV (Int.land x y))
    | _, _ => Except.error PyExc.typeError

/-- `operator.or_` (`|`): boolean disjunction on two bools, bitwise
OR on integers (bools coerce); other types raise `TypeError`. -/
def pyOr (l r : PyObj) : Except PyExc PyObj :=
  match l, r with
  | PyObj.boolV a, PyObj.boolV b => Except.ok (PyObj.boolV (a || b))
  | l, r =>
    match asIndex l, asIndex r with
    | some x, some y => Except.ok (PyObj.intV (Int.lor x y))
    | _, _ => Except.error PyExc.typeError

/-- The `BinaryOperation.__operations` table applied to two evaluated
operands.  Raises only the host exceptions a Python operator can
raise here: `TypeError` and `ZeroDivisionError`. -/
def pyApply : String → PyObj → PyObj → Except PyExc PyObj
  | "+", l, r => pyAdd l r
  | "-", l, r => pySub l r
  | "*", l, r => pyMul l r
  | "**", l, r => pyPow l r
  | "/", l, r => pyDiv l r
  | "%", l, r => pyMod l r
  | ">", l, r => (pyLt r l).map PyObj.boolV
  | ">=", l, r => (pyLe r l).map PyObj.boolV
  | "<", l, r => (pyLt l r).map PyObj.boolV
  | "<=", l, r => (pyLe l r).map PyObj.boolV
  | "==", l, r => Except.ok (PyObj.boolV (pyEq l r))
  | "!=", l, r => Except.ok (PyObj.boolV (!pyEq l r))
  | "and", l, r => pyAnd l r
  | "or", l, r => pyOr l r
  | _, _, _ => Except.error PyExc.typeError

/-- The keys of `BinaryOperation.__operations`. -/
def binOps : List String :=
  ["+", "-", "*", "**", "/", "%", ">", ">=", "<", "<=", "==", "!=", "and", "or"]

/-- The `CompoundOperation.__operations` table: each in-place operator
maps to the corresponding plain operator (the values here are
immutable, for which `operator.iadd` etc. coincide with the plain
forms). -/
def compoundBase : String → Option String
  | "+=" => some "+"
  | "-=" => some "-"
  | "/=" => some "/"
  | "*=" => some "*"
  | "%=" => some "%"
  | "**=" => some "**"
  | _ => Option.none

/-- Python class name of a node instance (`__class__.__name__`). -/
def nodeClassName : Node → String
  | Node.exitStatement => "ExitStatement"
  | Node.returnStatement _ => "ReturnStatement"
  | Node.primitive _ => "Primitive"
  | Node.identifier _ _ => "Identifier"
  | Node.assignment _ _ => "Assignment"
  | Node.binaryOperation _ _ _ => "BinaryOperation"
  | Node.compoundOperation _ _ _ => "CompoundOperation"
  | Node.ifStmt _ _ _ => "If"
  | Node.instrList _ => "InstructionList"
  | Node.forLoop _ _ _ _ _ => "For"
  | Node.whileLoop _ _ => "While"
  | Node.printStatement _ => "PrintStatement"
  | Node.functionCall _ _ => "FunctionCall"
  | Node.function _ _ => "Function"
  | Node.builtinFunction _ => "BuiltInFunction"

/-- Decimal-style text of a rational standing in for a Python float
(exact rationals are shown as fractions). -/
def ratStr (q : Rat) : String :=
  if q.den = 1 then toString q.num ++ ".0"
  else toString q.num ++ "/" ++ toString q.den

mutual

/-- Python `repr` of an object (element form inside lists); node
instances are abbreviated to their class name. -/
def pyRepr : PyObj → String
  | PyObj.intV i => toString i
  | PyObj.floatV q => ratStr q
  | PyObj.strV s => "'" ++ s ++ "'"
  | PyObj.boolV b => if b then "True" else "False"
  | PyObj.listV xs => "[" ++ pyReprList xs ++ "]"
  | PyObj.node n => "<" ++ nodeClassName n ++ ">"
  | PyObj.none => "None"

def pyReprList : List PyObj → String
  | [] => ""
  | [x] => pyRepr x
  | x :: rest => pyRepr x ++ ", " ++ pyReprList rest

end

/-- Python `str` of an object: like `repr` except that strings print
without quotes. -/
def pyStr : PyObj → String
  | PyObj.strV s => s
  | o => pyRepr o

/-- `__class__.__name__` of an eval result, as used in the
`InterpreterRuntimeError` message. -/
def typeName : PyObj → String
  | PyObj.intV _ => "int"
  | PyObj.floatV _ => "float"
  | PyObj.strV _ => "str"
  | PyObj.boolV _ => "bool"
  | PyObj.listV _ => "list"
  | PyObj.node n => nodeClassName n
  | PyObj.none => "NoneType"

/-- The message `"Unable to apply operation (%s: %s) %s (%s: %s)"`
formatted with left type, left value, operator, right type, right
value. -/
def opErrMsg (l : PyObj) (op : String) (r : PyObj) : String :=
  "Unable to apply operation (" ++ typeName l ++ ": " ++ pyStr l ++ ") "
    ++ op ++ " (" ++ typeName r ++ ": " ++ pyStr r ++ ")"

def primToObj : Prim → PyObj
  | Prim.pInt i => PyObj.intV i
  | Prim.pFloat q => PyObj.floatV q
  | Prim.pStr s => PyObj.strV s
  | Prim.pBool b => PyObj.boolV b

/-- `p.name` for a declared parameter: only identifiers carry one. -/
def paramName : Node → Option String
  | Node.identifier _ n => some n
  | _ => Option.none

/-- `Identifier.assign`: store into the function namespace when the
`is_function` flag is set, the variable namespace otherwise.  A
non-identifier target has no `assign` attribute. -/
def assignIdent (target : Node) (v : PyObj) (s : St) : Except Exc St :=
  match target with
  | Node.identifier true n => Except.ok (setfunc s n v)
  | Node.identifier false n => Except.ok (setsym s n v)
  | _ => Except.error Exc.attributeError

/-- Number of elements of Python `range(start, stop, step)` (the
interpreter only builds steps `1` and `-1`). -/
def rangeLen (start stop step : Int) : Nat :=
  if 0 < step then ((stop - start + step - 1) / step).toNat
  else if step < 0 then ((start - stop - step - 1) / (-step)).toNat
  else 0

/-- Python `range(start, stop, step)` as the list of produced
integers. -/
def rangeList (start stop step : Int) : List Int :=
  (List.range (rangeLen start stop step)).map (fun k : Nat => start + step * (k : Int))

/-- Host-provided callables wrapped by `BuiltInFunction`, indexed by
`fid`; the repository wires the concrete functions in externally.  A
representative callable returning its first argument is modelled. -/
def hostFunctions : Nat → List PyObj → Except PyExc PyObj
  | _, args => Except.ok (args.headD PyObj.none)

/-- Outcome of evaluating a node: a result object with the updated
state, an escaped exception with the state at raise time, or fuel
exhaustion (`div`, standing for non-termination). -/
inductive ERes where
  | ok (value : PyObj) (s : St)
  | err (e : Exc) (s : St)
  | div

/-- Outcome of building the call-argument mapping of `__eval_udf`. -/
inductive EResA where
  | ok (args : List (String × PyObj)) (s : St)
  | err (e : Exc) (s : St)
  | div

/-- `InstructionList.eval`, parameterized by the node evaluator `ev`:
members are evaluated strictly in order; a member that is an
`ExitStatement` instance, or evaluates to one, is returned
immediately; otherwise non-`None` results are collected in order. -/
def evalListF (ev : Node → St → ERes) : List Node → St → ERes
  | [], s => ERes.ok (PyObj.listV []) s
  | n :: rest, s =>
    if isExitNode n then ERes.ok (PyObj.node n) s
    else
      match ev n s with
      | ERes.ok res s1 =>
        if isExitObj res then ERes.ok res s1
        else
          match evalListF ev rest s1 with
          | ERes.ok (PyObj.listV l) s2 =>
            ERes.ok (PyObj.listV (if isNoneObj res then l else res :: l)) s2
          | other => other
      | other => other

/-- `full_eval`: repeatedly evaluate while the result is still a
`BaseExpression` (an AST node); the chain length is bounded by its
own fuel. -/
def fullEvalF (ev : Node → St → ERes) : Nat → PyObj → St → ERes
  | 0, PyObj.node _, _ => ERes.div
  | fuel + 1, PyObj.node n, s =>
    match ev n s with
    | ERes.ok r s1 => fullEvalF ev fuel r s1
    | other => other
  | _, o, s => ERes.ok o s

/-- The positional-argument loop of `FunctionCall.__eval_builtin_func`:
each call argument is fully evaluated, in order. -/
def evalArgsPosF (ev : Node → St → ERes) (fuel : Nat) : List Node → St → List PyObj → ERes
  | [], s, acc => ERes.ok (PyObj.listV acc.reverse) s
  | p :: rest, s, acc =>
    match fullEvalF ev fuel (PyObj.node p) s with
    | ERes.ok r s1 => evalArgsPosF ev fuel rest s1 (r :: acc)
    | other => other

/-- The `zip(func.params, self.params)` loop of
`FunctionCall.__eval_udf`: declared parameter names are paired with
call arguments strictly by position, stopping at the shorter list;
each paired argument is fully evaluated, in order. -/
def evalArgsZipF (ev : Node → St → ERes) (fuel : Nat) :
    List Node → List Node → St → List (String × PyObj) → EResA
  | [], _, s, acc => EResA.ok acc.reverse s
  | _ :: _, [], s, acc => EResA.ok acc.reverse s
  | p :: ps, v :: vs, s, acc =>
    match paramName p with
    | Option.none => EResA.err Exc.attributeError s
    | some nm =>
      match fullEvalF ev fuel (PyObj.node v) s with
      | ERes.ok r s1 => evalArgsZipF ev fuel ps vs s1 ((nm, r) :: acc)
      | ERes.err e s1 => EResA.err e s1
      | ERes.div => EResA.div

/-- The `for k, v in args.items(): symbols.setsym(k, v)` loop of
`Function.eval`. -/
def bindArgsSt : List (String × PyObj) → St → St
  | [], s => s
  | (k, v) :: rest, s => bindArgsSt rest (setsym s k v)

/-- `Function.eval(args)`: enter local scope mode, bind the argument
mapping, evaluate the body; if the body produced a `ReturnStatement`
its `eval` (a `full_eval` of the carried expression) is the call's
result, otherwise `None`.  The `try/finally` restores non-local mode
on every exit path (fuel exhaustion stands for the call never
returning, where the `finally` never runs either). -/
def evalFunctionF (ev : Node → St → ERes) (fuel : Nat)
    (body : List Node) (args : List (String × PyObj)) (s : St) : ERes :=
  let s1 := bindArgsSt args (set_local s true)
  match evalListF ev body s1 with
  | ERes.ok ret s2 =>
    match ret with
    | PyObj.node (Node.returnStatement e) =>
      match fullEvalF ev fuel (PyObj.node e) s2 with
      | ERes.ok v s3 => ERes.ok v (set_local s3 false)
      | ERes.err ex s3 => ERes.err ex (set_local s3 false)
      | ERes.div => ERes.div
    | _ => ERes.ok PyObj.none (set_local s2 false)
  | ERes.err ex s2 => ERes.err ex (set_local s2 false)
  | ERes.div => ERes.div

/-- The iteration of `For.eval` over the produced range: assign the
loop variable, evaluate the body, and break (the loop itself then
yields `None`) when the body evaluates to an `ExitStatement`. -/
def forAuxF (ev : Node → St → ERes) (var : Node) (body : List Node) :
    List Int → St → ERes
  | [], s => ERes.ok PyObj.none s
  | i :: rest, s =>
    match assignIdent var (PyObj.intV i) s with
    | Except.error e => ERes.err e s
    | Except.ok s1 =>
      match evalListF ev body s1 with
      | ERes.ok r s2 =>
        if isExitObj r then ERes.ok PyObj.none s2
        else forAuxF ev var body rest s2
      | other => other

/-- `While.eval`: re-evaluate the condition before each iteration;
break (the loop yields `None`) when the body evaluates to an
`ExitStatement`.  Iterations are bounded by fuel. -/
def whileAuxF (ev : Node → St → ERes) (cond : Node) (body : List Node) :
    Nat → St → ERes
  | 0, _ => ERes.div
  | fw + 1, s =>
    match ev cond s with
    | ERes.ok c s1 =>
      if truthy c then
        match evalListF ev body s1 with
        | ERes.ok r s2 =>
          if isExitObj r then ERes.ok PyObj.none s2
          else whileAuxF ev cond body fw s2
        | other => other
      else ERes.ok PyObj.none s1
    | other => other

/-- One evaluation layer: the `eval` method of each node class, with
`ev` evaluating child nodes and `fuel` bounding the unboundedly
recursive helpers (`full_eval`, `while`, function bodies). -/
def evalNodeF (ev : Node → St → ERes) (fuel : Nat) : Node → St → ERes
  | Node.exitStatement, s => ERes.ok PyObj.none s
  | Node.returnStatement e, s => fullEvalF ev fuel (PyObj.node e) s
  | Node.primitive v, s => ERes.ok (primToObj v) s
  | Node.identifier isF n, s =>
    if isF then
      match getfunc s n with
      | Except.ok v => ERes.ok v s
      | Except.error e => ERes.err e s
    else
      match getsym s n with
      | Except.ok v => ERes.ok v s
      | Except.error e => ERes.err e s
  | Node.assignment target v, s =>
    match target with
    | Node.identifier true n => ERes.ok PyObj.none (setfunc s n (PyObj.node v))
    | Node.identifier false n =>
      match ev v s with
      | ERes.ok r s1 => ERes.ok PyObj.none (setsym s1 n r)
      | other => other
    | _ => ERes.err Exc.attributeError s
  | Node.binaryOperation l r op, s =>
    match ev l s with
    | ERes.ok lv s1 =>
      match ev r s1 with
      | ERes.ok rv s2 =>
        if binOps.contains op then
          match pyApply op lv rv with
          | Except.ok v => ERes.ok v s2
          | Except.error PyExc.typeError =>
            ERes.err (Exc.interpreterRuntimeError (opErrMsg lv op rv)) s2
          | Except.error PyExc.zeroDivisionError => ERes.err Exc.zeroDivisionError s2
        else ERes.err Exc.keyError s2
      | other => other
    | other => other
  | Node.compoundOperation target m op, s =>
    match target with
    | Node.identifier isF n =>
      match (if isF then getfunc s n else getsym s n) with
      | Except.error e => ERes.err e s
      | Except.ok lv =>
        match ev m s with
        | ERes.ok rv s1 =>
          match compoundBase op with
          | Option.none => ERes.err Exc.keyError s1
          | some bop =>
            match pyApply bop lv rv with
            | Except.ok res =>
              ERes.ok PyObj.none (if isF then setfunc s1 n res else setsym s1 n res)
            | Except.error PyExc.typeError =>
              ERes.err (Exc.interpreterRuntimeError (opErrMsg lv op rv)) s1
            | Except.error PyExc.zeroDivisionError => ERes.err Exc.zeroDivisionError s1
        | other => other
    | _ => ERes.err Exc.attributeError s
  | Node.ifStmt c tp ep, s =>
    match ev c s with
    | ERes.ok cv s1 =>
      if truthy cv then evalListF ev tp s1
      else
        match ep with
        | some e => ev e s1
        | Option.none => ERes.ok PyObj.none s1
    | other => other
  | Node.instrList xs, s => evalListF ev xs s
  | Node.forLoop var st en asc body, s =>
    match ev st s with
    | ERes.ok sv s1 =>
      match ev en s1 with
      | ERes.ok evv s2 =>
        match asIndex sv, asIndex evv with
        | some a, some b =>
          forAuxF ev var body (rangeList a (1 + b) (if asc then 1 else -1)) s2
        | _, _ => ERes.err Exc.typeError s2
      | other => other
    | other => other
  | Node.whileLoop c body, s => whileAuxF ev c body fuel s
  | Node.printStatement items, s =>
    match evalListF ev items s with
    | ERes.ok (PyObj.listV xs) s1 =>
      ERes.ok PyObj.none { s1 with out := s1.out ++ String.join (xs.map pyStr) }
    | ERes.ok _ s1 => ERes.err Exc.typeError s1
    | other => other
  | Node.functionCall nm ps, s =>
    match ev nm s with
    | ERes.ok (PyObj.node (Node.builtinFunction _)) s1 =>
      match ev nm s1 with
      | ERes.ok fobj s2 =>
        match evalArgsPosF ev fuel ps s2 [] with
        | ERes.ok (PyObj.listV args) s3 =>
          match fobj with
          | PyObj.node (Node.builtinFunction fid) =>
            match hostFunctions fid args with
            | Except.ok v => ERes.ok v s3
            | Except.error e => ERes.err (hostExc e) s3
          | _ => ERes.err Exc.attributeError s3
        | ERes.ok _ s3 => ERes.err Exc.typeError s3
        | other => other
      | other => other
    | ERes.ok _ s1 =>
      match ev nm s1 with
      | ERes.ok fobj s2 =>
        match fobj with
        | PyObj.node (Node.function fps fbody) =>
          match evalArgsZipF ev fuel fps ps s2 [] with
          | EResA.ok args s3 => evalFunctionF ev fuel fbody args s3
          | EResA.err e s3 => ERes.err e s3
          | EResA.div => ERes.div
        | _ => ERes.err Exc.attributeError s2
      | other => other
    | other => other
  | Node.function _ _, s => ERes.err Exc.typeError s
  | Node.builtinFunction _, s => ERes.err Exc.typeError s

/-- The fuel-indexed node evaluator tying the evaluation layers
together: each nesting layer, `full_eval` chain link, `while`
iteration and function-body invocation consumes fuel. -/
def evalNode : Nat → Node → St → ERes
  | 0, _, _ => ERes.div
  | f + 1, n, s => evalNodeF (evalNode f) f n s

/-- Project the value bound to a variable name out of a successful
final state (used to state concrete evaluations compactly). -/
def finalSym (name : String) : ERes → Option PyObj
  | ERes.ok _ s =>
    match getsym s name with
    | Except.ok v => some v
    | Except.error _ => Option.none
  | _ => Option.none

/-- The result value of a successful evaluation. -/
def resValue : ERes → Option PyObj
  | ERes.ok v _ => some v
  | _ => Option.none

/-- The accumulated standard output after an evaluation outcome. -/
def resOut : ERes → Option String
  | ERes.ok _ s => some s.out
  | ERes.err _ s => some s.out
  | ERes.div => Option.none

/-- The escaped exception of a failed evaluation. -/
def resErr : ERes → Option Exc
  | ERes.err e _ => some e
  | _ => Option.none

/-- The scope-store mode flag after an evaluation outcome. -/
def resIsLocal : ERes → Option Bool
  | ERes.ok _ s => some s.isLocal
  | ERes.err _ s => some s.isLocal
  | ERes.div => Option.none

/-- The local-partition bindings after an evaluation outcome. -/
def resLocals : ERes → Option (List (String × PyObj))
  | ERes.ok _ s => some s.locals
  | ERes.err _ s => some s.locals
  | ERes.div => Option.none

/-! Concrete programs used to witness the verified properties. -/

/-- The empty initial state: empty scope store, global mode, no
output. -/
def stEmpty : St := ⟨[], [], [], [], false, ""⟩

/-- Initial state with a counter variable `c` bound to 0. -/
def stC0 : St := ⟨[("c", PyObj.intV 0)], [], [], [], false, ""⟩

/-- Loop body `c += 1`, counting body executions. -/
def cIncr : Node :=
  Node.compoundOperation (Node.identifier false "c") (Node.primitive (Prim.pInt 1)) "+="

/-- `for i in 1 -> 3 { c += i }`: the body reads the loop variable,
so the final counter (6) shows the variable is assigned before each
body evaluation. -/
def sumLoop13 : Node :=
  Node.forLoop (Node.identifier false "i") (Node.primitive (Prim.pInt 1))
    (Node.primitive (Prim.pInt 3)) true
    [Node.compoundOperation (Node.identifier false "c") (Node.identifier false "i") "+="]

/-- A counting loop over 1..10 whose body returns immediately,
followed by `x = 42`. -/
def c2ForProg : Node := Node.instrList
  [ Node.forLoop (Node.identifier false "i") (Node.primitive (Prim.pInt 1))
      (Node.primitive (Prim.pInt 10)) true
      [Node.returnStatement (Node.primitive (Prim.pInt 7))],
    Node.assignment (Node.identifier false "x") (Node.primitive (Prim.pInt 42)) ]

/-- `while true { return 7 }` followed by `x = 42`. -/
def c2WhileProg : Node := Node.instrList
  [ Node.whileLoop (Node.primitive (Prim.pBool true))
      [Node.returnStatement (Node.primitive (Prim.pInt 7))],
    Node.assignment (Node.identifier false "x") (Node.primitive (Prim.pInt 42)) ]

/-- Define `f() { return 1; print("unreachable") }`, then call it. -/
def c3Prog : Node := Node.instrList
  [ Node.assignment (Node.identifier true "f")
      (Node.function []
        [ Node.returnStatement (Node.primitive (Prim.pInt 1)),
          Node.printStatement [Node.primitive (Prim.pStr "unreachable")] ]),
    Node.functionCall (Node.identifier true "f") [] ]

/-- A sequence whose middle member (an assignment) yields `None`:
only the non-absent results are collected, in order. -/
def c3Ord : Node := Node.instrList
  [ Node.primitive (Prim.pInt 1),
    Node.assignment (Node.identifier false "y") (Node.primitive (Prim.pInt 2)),
    Node.primitive (Prim.pStr "s") ]

/-- Define `g(x) { if x > 0 { return 99 } }`, then call `g(1)`: the
return is nested inside the conditional. -/
def c4Prog : Node := Node.instrList
  [ Node.assignment (Node.identifier true "g")
      (Node.function [Node.identifier false "x"]
        [ Node.ifStmt
            (Node.binaryOperation (Node.identifier false "x")
              (Node.primitive (Prim.pInt 0)) ">")
            [Node.returnStatement (Node.primitive (Prim.pInt 99))] Option.none ]),
    Node.functionCall (Node.identifier true "g") [Node.primitive (Prim.pInt 1)] ]

/-- Define `h() { y = 5 }` (no return), then call it: the call yields
no value, so the enclosing sequence collects nothing. -/
def c4Prog2 : Node := Node.instrList
  [ Node.assignment (Node.identifier true "h")
      (Node.function []
        [Node.assignment (Node.identifier false "y") (Node.primitive (Prim.pInt 5))]),
    Node.functionCall (Node.identifier true "h") [] ]

/-- A one-parameter function body returning its parameter. -/
def idRetBody : List Node := [Node.returnStatement (Node.identifier false "x")]

/-- `f1(x){return x}` called with two arguments: the extra argument
is silently dropped. -/
def c5Extra : Node := Node.instrList
  [ Node.assignment (Node.identifier true "f1")
      (Node.function [Node.identifier false "x"] idRetBody),
    Node.functionCall (Node.identifier true "f1")
      [Node.primitive (Prim.pInt 7), Node.primitive (Prim.pInt 8)] ]

/-- `f2(x, y){return x}` called with one argument: the unmatched
parameter `y` is left unbound, without an arity error. -/
def c5Missing : Node := Node.instrList
  [ Node.assignment (Node.identifier true "f2")
      (Node.function [Node.identifier false "x", Node.identifier false "y"] idRetBody),
    Node.functionCall (Node.identifier true "f2") [Node.primitive (Prim.pInt 7)] ]

/-- `f3(x){return x}` called with no arguments: the failure is the
unbound-name lookup of `x`, not an arity error. -/
def c5Unbound : Node := Node.instrList
  [ Node.assignment (Node.identifier true "f3")
      (Node.function [Node.identifier false "x"] idRetBody),
    Node.functionCall (Node.identifier true "f3") [] ]

/-- Define `g() { print("R"); return 2 }`, then evaluate `1 or g()`:
with short-circuiting the call would never run. -/
def c6Prog : Node := Node.instrList
  [ Node.assignment (Node.identifier true "g")
      (Node.function []
        [ Node.printStatement [Node.primitive (Prim.pStr "R")],
          Node.returnStatement (Node.primitive (Prim.pInt 2)) ]),
    Node.binaryOperation (Node.primitive (Prim.pInt 1))
      (Node.functionCall (Node.identifier true "g") []) "or" ]

/-- Global `x = 1`, define `g(x){return x}`, call `g(2)`: the
parameter binding goes to the local partition. -/
def c8Ok : Node := Node.instrList
  [ Node.assignment (Node.identifier false "x") (Node.primitive (Prim.pInt 1)),
    Node.assignment (Node.identifier true "g")
      (Node.function [Node.identifier false "x"] idRetBody),
    Node.functionCall (Node.identifier true "g") [Node.primitive (Prim.pInt 2)] ]

/-- Define `h() { 1 + "a" }`, whose body raises the runtime error,
then call it: local mode must still be released. -/
def c8Err : Node := Node.instrList
  [ Node.assignment (Node.identifier true "h")
      (Node.function []
        [ Node.binaryOperation (Node.primitive (Prim.pInt 1))
            (Node.primitive (Prim.pStr "a")) "+" ]),
    Node.functionCall (Node.identifier true "h") [] ]

/-- The print items `"a", 1, "b"`. -/
def c9Items : List Node :=
  [ Node.primitive (Prim.pStr "a"), Node.primitive (Prim.pInt 1),
    Node.primitive (Prim.pStr "b") ]

/-! Scope-store lemmas. -/

theorem setsym_isLocal (s : St) (n : String) (v : PyObj) :
    (setsym s n v).isLocal = s.isLocal := by
  by_cases h : s.isLocal <;> simp [setsym, h]

theorem getsym_setsym_self (s : St) (n : String) (v : PyObj) :
    getsym (setsym s n v) n = Except.ok v := by
  by_cases h : s.isLocal <;> simp [getsym, setsym, lookupA, h]

theorem getsym_setsym_ne (s : St) (m n : String) (v : PyObj) (h : m ≠ n) :
    getsym (setsym s m v) n = getsym s n := by
  by_cases hl : s.isLocal <;> simp [getsym, setsym, lookupA, hl, h]

theorem bindArgsSt_isLocal (args : List (String × PyObj)) (t : St) :
    (bindArgsSt args t).isLocal = t.isLocal := by
  induction args generalizing t with
  | nil => rfl
  | cons kv rest ih => simp [bindArgsSt, ih, setsym_isLocal]

/-! Loop lemmas: a loop's own successful evaluation always yields
`None`, whatever its body produced. -/

theorem forAuxF_ok_value (ev : Node → St → ERes) (var : Node) (body : List Node) :
    ∀ (is_ : List Int) (s : St) (o : PyObj) (s' : St),
      forAuxF ev var body is_ s = ERes.ok o s' → o = PyObj.none := by
  intro is_
  induction is_ with
  | nil =>
    intro s o s' h
    simp only [forAuxF, ERes.ok.injEq] at h
    exact h.1.symm
  | cons i rest ih =>
    intro s o s' h
    simp only [forAuxF] at h
    cases ha : assignIdent var (PyObj.intV i) s with
    | error e => simp only [ha] at h; cases h
    | ok s1 =>
      simp only [ha] at h
      cases hb : evalListF ev body s1 with
      | ok r s2 =>
        simp only [hb] at h
        by_cases hex : isExitObj r
        · simp only [hex, if_true, ERes.ok.injEq] at h
          exact h.1.symm
        · simp only [hex, if_false, Bool.false_eq_true] at h
          exact ih s2 o s' h
      | err e s2 => simp only [hb] at h; cases h
      | div => simp only [hb] at h; cases h

theorem whileAuxF_ok_value (ev : Node → St → ERes) (cond : Node) (body : List Node) :
    ∀ (fw : Nat) (s : St) (o : PyObj) (s' : St),
      whileAuxF ev cond body fw s = ERes.ok o s' → o = PyObj.none := by
  intro fw
  induction fw with
  | zero => intro s o s' h; cases h
  | succ g ih =>
    intro s o s' h
    simp only [whileAuxF] at h
    cases hc : ev cond s with
    | ok c s1 =>
      simp only [hc] at h
      by_cases ht : truthy c
      · simp only [ht, if_true] at h
        cases hb : evalListF ev body s1 with
        | ok r s2 =>
          simp only [hb] at h
          by_cases hex : isExitObj r
          · simp only [hex, if_true, ERes.ok.injEq] at h
            exact h.1.symm
          · simp only [hex, if_false, Bool.false_eq_true] at h
            exact ih s2 o s' h
        | err e s2 => simp only [hb] at h; cases h
        | div => simp only [hb] at h; cases h
      · simp only [ht, if_false, Bool.false_eq_true, ERes.ok.injEq] at h
        exact h.1.symm
    | err e s1 => simp only [hc] at h; cases h
    | div => simp only [hc] at h; cases h

/-! Instruction-sequence lemmas: evaluation decomposes over
concatenation; an early exit in the prefix discards the suffix
entirely (its members are never evaluated). -/

theorem evalListF_append_exit (ev : Node → St → ERes) :
    ∀ (xs ys : List Node) (s : St) (e : Node) (s' : St),
      evalListF ev xs s = ERes.ok (PyObj.node e) s' →
      evalListF ev (xs ++ ys) s = ERes.ok (PyObj.node e) s' := by
  intro xs
  induction xs with
  | nil =>
    intro ys s e s' h
    simp only [evalListF, ERes.ok.injEq] at h
    cases h.1
  | cons n rest ih =>
    intro ys s e s' h
    simp only [evalListF, List.cons_append, List.append_eq] at h ⊢
    by_cases hx : isExitNode n
    · simp only [hx, if_true] at h ⊢; exact h
    · simp only [hx, if_false, Bool.false_eq_true] at h ⊢
      cases he : ev n s with
      | ok res s1 =>
        simp only [he, List.append_eq] at h ⊢
        by_cases hex : isExitObj res
        · simp only [hex, if_true] at h ⊢; exact h
        · simp only [hex, if_false, Bool.false_eq_true] at h ⊢
          cases hr : evalListF ev rest s1 with
          | ok rv s2 =>
            cases rv with
            | node e2 =>
              simp only [hr, ERes.ok.injEq, PyObj.node.injEq] at h
              obtain ⟨h1, h2⟩ := h
              rw [ih ys s1 e2 s2 hr, h1, h2]
            | listV l => simp only [hr, ERes.ok.injEq] at h; cases h.1
            | intV i => simp only [hr, ERes.ok.injEq] at h; cases h.1
            | floatV q => simp only [hr, ERes.ok.injEq] at h; cases h.1
            | strV a => simp only [hr, ERes.ok.injEq] at h; cases h.1
            | boolV b => simp only [hr, ERes.ok.injEq] at h; cases h.1
            | none => simp only [hr, ERes.ok.injEq] at h; cases h.1
          | err e2 s2 => simp only [hr] at h; cases h
          | div => simp only [hr] at h; cases h
      | err e2 s1 => simp only [he] at h ⊢; exact h
      | div => simp only [he] at h ⊢; exact h

theorem evalListF_append_ok (ev : Node → St → ERes) :
    ∀ (xs ys : List Node) (s : St) (l : List PyObj) (s' : St),
      evalListF ev xs s = ERes.ok (PyObj.listV l) s' →
      evalListF ev (xs ++ ys) s =
        (match evalListF ev ys s' with
         | ERes.ok (PyObj.listV l2) s2 => ERes.ok (PyObj.listV (l ++ l2)) s2
         | other => other) := by
  intro xs
  induction xs with
  | nil =>
    intro ys s l s' h
    simp only [evalListF, ERes.ok.injEq, PyObj.listV.injEq] at h
    obtain ⟨h1, h2⟩ := h
    subst h1; subst h2
    simp only [List.nil_append]
    cases hy : evalListF ev ys s with
    | ok rv s2 => cases rv <;> simp
    | err e2 s2 => simp
    | div => simp
  | cons n rest ih =>
    intro ys s l s' h
    simp only [evalListF, List.cons_append, List.append_eq] at h ⊢
    by_cases hx : isExitNode n
    · simp only [hx, if_true, ERes.ok.injEq] at h; cases h.1
    · simp only [hx, if_false, Bool.false_eq_true] at h ⊢
      cases he : ev n s with
      | ok res s1 =>
        simp only [he, List.append_eq] at h ⊢
        by_cases hex : isExitObj res
        · simp only [hex, if_true, ERes.ok.injEq] at h
          rw [h.1] at hex
          simp [isExitObj] at hex
        · simp only [hex, if_false, Bool.false_eq_true] at h ⊢
          cases hr : evalListF ev rest s1 with
          | ok rv s2 =>
            cases rv with
            | listV lr =>
              simp only [hr, ERes.ok.injEq, PyObj.listV.injEq] at h
              obtain ⟨h1, h2⟩ := h
              subst h1; subst h2
              rw [ih ys s1 lr s2 hr]
              cases hy : evalListF ev ys s2 with
              | ok rv2 s3 =>
                cases rv2 with
                | listV l2 => by_cases hn : isNoneObj res <;> simp [hn]
                | intV i => simp
                | floatV q => simp
                | strV a => simp
                | boolV b => simp
                | node e2 => simp
                | none => simp
              | err e2 s3 => simp
              | div => simp
            | node e2 => simp only [hr, ERes.ok.injEq] at h; cases h.1
            | intV i => simp only [hr, ERes.ok.injEq] at h; cases h.1
            | floatV q => simp only [hr, ERes.ok.injEq] at h; cases h.1
            | strV a => simp only [hr, ERes.ok.injEq] at h; cases h.1
            | boolV b => simp only [hr, ERes.ok.injEq] at h; cases h.1
            | none => simp only [hr, ERes.ok.injEq] at h; cases h.1
          | err e2 s2 => simp only [hr] at h; cases h
          | div => simp only [hr] at h; cases h
      | err e2 s1 => simp only [he] at h; cases h
      | div => simp only [he] at h; cases h

/-! Range lemmas for the counting loop. -/

theorem rangeLen_one (start stop : Int) : rangeLen start stop 1 = (stop - start).toNat := by
  simp only [rangeLen, if_pos (by norm_num : (0 : Int) < 1)]
  norm_num

theorem rangeLen_negOne (start stop : Int) :
    rangeLen start stop (-1) = (start - stop).toNat := by
  simp only [rangeLen, if_neg (by norm_num : ¬(0 : Int) < -1),
    if_pos (by norm_num : (-1 : Int) < 0)]
  norm_num

theorem rangeList_length (start stop step : Int) :
    (rangeList start stop step).length = rangeLen start stop step := by
  rw [rangeList, List.length_map, List.length_range]

/-! Counting the body executions of a `For` loop with body `c += 1`. -/

theorem evalList_cIncr (f : Nat) (s : St) (c : Int)
    (hc : getsym s "c" = Except.ok (PyObj.intV c)) :
    evalListF (evalNode (f + 2)) [cIncr] s
      = ERes.ok (PyObj.listV []) (setsym s "c" (PyObj.intV (c + 1))) := by
  simp [evalListF, cIncr, isExitNode, evalNode, evalNodeF, hc, compoundBase, pyApply,
    pyAdd, isExitObj, isNoneObj, primToObj]

theorem forAuxF_cIncr (vn : String) (hvn : vn ≠ "c") :
    ∀ (is_ : List Int) (f : Nat) (s : St) (c : Int),
      getsym s "c" = Except.ok (PyObj.intV c) →
      ∃ s', forAuxF (evalNode (f + 2)) (Node.identifier false vn) [cIncr] is_ s
              = ERes.ok PyObj.none s'
        ∧ getsym s' "c" = Except.ok (PyObj.intV (c + is_.length)) := by
  intro is_
  induction is_ with
  | nil =>
    intro f s c hc
    exact ⟨s, by simp [forAuxF], by simpa using hc⟩
  | cons i rest ih =>
    intro f s c hc
    have h1 : getsym (setsym s vn (PyObj.intV i)) "c" = Except.ok (PyObj.intV c) := by
      rw [getsym_setsym_ne _ _ _ _ hvn]; exact hc
    have hbody := evalList_cIncr f (setsym s vn (PyObj.intV i)) c h1
    have h2 : getsym (setsym (setsym s vn (PyObj.intV i)) "c" (PyObj.intV (c + 1))) "c"
        = Except.ok (PyObj.intV (c + 1)) := getsym_setsym_self _ _ _
    obtain ⟨s', hs1, hs2⟩ := ih f _ (c + 1) h2
    refine ⟨s', ?_, ?_⟩
    · simp only [forAuxF, assignIdent]
      rw [hbody]
      simp [isExitObj, hs1]
    · rw [hs2]
      congr 2
      simp only [List.length_cons]
      push_cast
      ring

theorem evalNode_forLoop_unfold (vn : String) (a b : Int) (asc : Bool) (f : Nat) (s : St) :
    evalNode (f + 4) (Node.forLoop (Node.identifier false vn) (Node.primitive (Prim.pInt a))
        (Node.primitive (Prim.pInt b)) asc [cIncr]) s
      = forAuxF (evalNode (f + 3)) (Node.identifier false vn) [cIncr]
          (rangeList a (1 + b) (if asc then 1 else -1)) s := by
  simp [evalNode, evalNodeF, primToObj, asIndex]

/-- C1 (corrected).  Amended claim: for integers a ≤ b, the
ascending counting loop from a to b executes its body exactly
(b−a+1) times (witnessed by a body `c += 1`); the descending loop
from b to a with ascending=false executes its body exactly
max(b−a−1, 0) times, because the range stop bound is `1 + end`
regardless of direction, so the descending iteration stops above
end+1 rather than including the end value.  The loop variable is
assigned before each body evaluation (third conjunct: a body `c += i`
over 1..3 accumulates 1+2+3 = 6). -/
theorem forLoop_iteration_counts (a b : Int) (h : a ≤ b) (f : Nat) (s : St) (c : Int)
    (hc : getsym s "c" = Except.ok (PyObj.intV c)) :
    (∃ s', evalNode (f + 4) (Node.forLoop (Node.identifier false "i")
          (Node.primitive (Prim.pInt a)) (Node.primitive (Prim.pInt b)) true [cIncr]) s
        = ERes.ok PyObj.none s'
      ∧ getsym s' "c" = Except.ok (PyObj.intV (c + (b - a + 1))))
  ∧ (∃ s', evalNode (f + 4) (Node.forLoop (Node.identifier false "i")
          (Node.primitive (Prim.pInt b)) (Node.primitive (Prim.pInt a)) false [cIncr]) s
        = ERes.ok PyObj.none s'
      ∧ getsym s' "c" = Except.ok (PyObj.intV (c + max (b - a - 1) 0)))
  ∧ finalSym "c" (evalNode 30 sumLoop13 stC0) = some (PyObj.intV 6) := by
  refine ⟨?_, ?_, rfl⟩
  · obtain ⟨s', h1, h2⟩ :=
      forAuxF_cIncr "i" (by decide) (rangeList a (1 + b) 1) (f + 1) s c hc
    refine ⟨s', ?_, ?_⟩
    · rw [evalNode_forLoop_unfold "i" a b true f s]
      simpa using h1
    · rw [h2]
      congr 2
      rw [rangeList_length, rangeLen_one]
      omega
  · obtain ⟨s', h1, h2⟩ :=
      forAuxF_cIncr "i" (by decide) (rangeList b (1 + a) (-1)) (f + 1) s c hc
    refine ⟨s', ?_, ?_⟩
    · rw [evalNode_forLoop_unfold "i" b a false f s]
      simpa using h1
    · rw [h2]
      congr 2
      rw [rangeList_length, rangeLen_negOne]
      omega

/-- Witness for C1's amended theorem at a = 2, b = 5: its hypotheses
hold at this concrete input, and the loop-variable conjunct yields
the concrete sum 6. -/
theorem forLoop_iteration_counts_witness :
    (2 : Int) ≤ 5 ∧ getsym stC0 "c" = Except.ok (PyObj.intV 0)
      ∧ finalSym "c" (evalNode 30 sumLoop13 stC0) = some (PyObj.intV 6) :=
  ⟨by decide, rfl, (forLoop_iteration_counts 2 5 (by decide) 0 stC0 0 rfl).2.2⟩

/-- C1 counterexample: the descending loop from 5 to 2 (a = 2,
b = 5, ascending = false) executes its body only 2 times, not
b − a + 1 = 4 times as claimed. -/
theorem forLoop_descending_counterexample :
    finalSym "c" (evalNode 20 (Node.forLoop (Node.identifier false "i")
        (Node.primitive (Prim.pInt 5)) (Node.primitive (Prim.pInt 2)) false [cIncr]) stC0)
      = some (PyObj.intV 2)
    ∧ (2 : Int) ≠ 5 - 2 + 1 :=
  ⟨rfl, by decide⟩

/-- C2: a loop (counting or conditional) whose evaluation succeeds
always yields `None` — the body's Early-Exit Signal only breaks the
iteration and is never re-propagated to the loop's caller.
Concretely: a loop over 1..10 whose body returns stops after its
first iteration (the loop variable ends at 1), and the enclosing
sequence continues past the loop (`x` gets 42); same for a
`while true` loop with a returning body. -/
theorem loops_swallow_exit_signal (f : Nat) (s : St) :
    (∀ (var st en : Node) (asc : Bool) (body : List Node) (o : PyObj) (s' : St),
        evalNode f (Node.forLoop var st en asc body) s = ERes.ok o s' → o = PyObj.none)
  ∧ (∀ (cond : Node) (body : List Node) (o : PyObj) (s' : St),
        evalNode f (Node.whileLoop cond body) s = ERes.ok o s' → o = PyObj.none)
  ∧ finalSym "x" (evalNode 30 c2ForProg stEmpty) = some (PyObj.intV 42)
  ∧ finalSym "i" (evalNode 30 c2ForProg stEmpty) = some (PyObj.intV 1)
  ∧ resValue (evalNode 30 c2ForProg stEmpty) = some (PyObj.listV [])
  ∧ finalSym "x" (evalNode 30 c2WhileProg stEmpty) = some (PyObj.intV 42) := by
  refine ⟨?_, ?_, rfl, rfl, rfl, rfl⟩
  · intro var st en asc body o s' h
    cases f with
    | zero => cases h
    | succ g =>
      simp only [evalNode, evalNodeF] at h
      cases h1 : evalNode g st s with
      | ok sv s1 =>
        simp only [h1] at h
        cases h2 : evalNode g en s1 with
        | ok evv s2 =>
          simp only [h2] at h
          cases h3 : asIndex sv with
          | some a =>
            cases h4 : asIndex evv with
            | some b =>
              simp only [h3, h4] at h
              exact forAuxF_ok_value _ _ _ _ _ _ _ h
            | none => simp only [h3, h4] at h; cases h
          | none =>
            cases h4 : asIndex evv <;> simp only [h3, h4] at h <;> cases h
        | err e s2 => simp only [h2] at h; cases h
        | div => simp only [h2] at h; cases h
      | err e s1 => simp only [h1] at h; cases h
      | div => simp only [h1] at h; cases h
  · intro cond body o s' h
    cases f with
    | zero => cases h
    | succ g =>
      simp only [evalNode, evalNodeF] at h
      exact whileAuxF_ok_value _ _ _ _ _ _ _ h

/-- Witness for C2: a concrete counting loop whose body returns
evaluates successfully (to `None`, with the loop variable assigned
once), discharging the theorem's hypothesis. -/
theorem loops_swallow_exit_signal_witness :
    evalNode 10 (Node.forLoop (Node.identifier false "i") (Node.primitive (Prim.pInt 1))
        (Node.primitive (Prim.pInt 1)) true
        [Node.returnStatement (Node.primitive (Prim.pInt 7))]) stEmpty
      = ERes.ok PyObj.none ⟨[("i", PyObj.intV 1)], [], [], [], false, ""⟩
    ∧ (PyObj.none : PyObj) = PyObj.none :=
  ⟨rfl,
    (loops_swallow_exit_signal 10 stEmpty).1 (Node.identifier false "i")
      (Node.primitive (Prim.pInt 1)) (Node.primitive (Prim.pInt 1)) true
      [Node.returnStatement (Node.primitive (Prim.pInt 7))] PyObj.none
      ⟨[("i", PyObj.intV 1)], [], [], [], false, ""⟩ rfl⟩

/-- C3: instruction-sequence evaluation proceeds strictly in order;
at the first member that is an Early-Exit Signal itself (third
conjunct) or whose evaluation yields one (first conjunct), that
signal is returned immediately and no subsequent member is evaluated
(the appended suffix `ys` is discarded entirely); otherwise
non-absent results are collected in order (second conjunct), as in
the concrete runs: `[return 1, print("unreachable")]` as a function
body yields 1 without printing, and `[1, y = 2, "s"]` collects
`[1, "s"]`. -/
theorem instruction_sequence_eval (f : Nat) :
    (∀ (xs ys : List Node) (s : St) (e : Node) (s' : St),
        evalListF (evalNode f) xs s = ERes.ok (PyObj.node e) s' →
        evalListF (evalNode f) (xs ++ ys) s = ERes.ok (PyObj.node e) s')
  ∧ (∀ (xs ys : List Node) (s : St) (l : List PyObj) (s' : St),
        evalListF (evalNode f) xs s = ERes.ok (PyObj.listV l) s' →
        evalListF (evalNode f) (xs ++ ys) s =
          (match evalListF (evalNode f) ys s' with
           | ERes.ok (PyObj.listV l2) s2 => ERes.ok (PyObj.listV (l ++ l2)) s2
           | other => other))
  ∧ (∀ (n : Node) (rest : List Node) (s : St), isExitNode n = true →
        evalListF (evalNode f) (n :: rest) s = ERes.ok (PyObj.node n) s)
  ∧ resValue (evalNode 30 c3Prog stEmpty) = some (PyObj.listV [PyObj.intV 1])
  ∧ resOut (evalNode 30 c3Prog stEmpty) = some ""
  ∧ resValue (evalNode 30 c3Ord stEmpty)
      = some (PyObj.listV [PyObj.intV 1, PyObj.strV "s"]) := by
  refine ⟨evalListF_append_exit _, evalListF_append_ok _, ?_, rfl, rfl, rfl⟩
  intro n rest s hn
  simp [evalListF, hn]

/-- Witness for C3: a `return` member heads a sequence with a print
statement behind it; the sequence evaluation returns the signal with
the state untouched. -/
theorem instruction_sequence_eval_witness :
    isExitNode (Node.returnStatement (Node.primitive (Prim.pInt 1))) = true
    ∧ evalListF (evalNode 10)
        (Node.returnStatement (Node.primitive (Prim.pInt 1))
          :: [Node.printStatement [Node.primitive (Prim.pStr "unreachable")]]) stEmpty
      = ERes.ok (PyObj.node (Node.returnStatement (Node.primitive (Prim.pInt 1)))) stEmpty :=
  ⟨rfl,
    (instruction_sequence_eval 10).2.2.1 (Node.returnStatement (Node.primitive (Prim.pInt 1)))
      [Node.printStatement [Node.primitive (Prim.pStr "unreachable")]] stEmpty rfl⟩

/-- C4: a Return Signal produced anywhere in a function body — in
particular by a Conditional, which passes its branch's result
through unchanged (first conjunct) — carries the call's result value
(second conjunct); a body yielding anything other than a Return
Signal makes the call yield no value (third conjunct).  Concretely,
`g(x){ if x > 0 { return 99 } }` called with 1 yields 99, and a
function without a return yields nothing. -/
theorem function_return_value (f : Nat) :
    (∀ (c : Node) (tp : List Node) (ep : Option Node) (s : St) (cv : PyObj) (s1 : St),
        evalNode f c s = ERes.ok cv s1 → truthy cv = true →
        evalNode (f + 1) (Node.ifStmt c tp ep) s = evalListF (evalNode f) tp s1)
  ∧ (∀ (body : List Node) (args : List (String × PyObj)) (s : St) (e : Node) (s' : St)
        (v : PyObj) (s'' : St),
        evalListF (evalNode f) body (bindArgsSt args (set_local s true))
            = ERes.ok (PyObj.node (Node.returnStatement e)) s' →
        fullEvalF (evalNode f) f (PyObj.node e) s' = ERes.ok v s'' →
        evalFunctionF (evalNode f) f body args s = ERes.ok v (set_local s'' false))
  ∧ (∀ (body : List Node) (args : List (String × PyObj)) (s : St) (r : PyObj) (s' : St),
        evalListF (evalNode f) body (bindArgsSt args (set_local s true)) = ERes.ok r s' →
        (∀ e : Node, r ≠ PyObj.node (Node.returnStatement e)) →
        evalFunctionF (evalNode f) f body args s = ERes.ok PyObj.none (set_local s' false))
  ∧ resValue (evalNode 30 c4Prog stEmpty) = some (PyObj.listV [PyObj.intV 99])
  ∧ resValue (evalNode 30 c4Prog2 stEmpty) = some (PyObj.listV []) := by
  refine ⟨?_, ?_, ?_, rfl, rfl⟩
  · intro c tp ep s cv s1 h1 ht
    simp [evalNode, evalNodeF, h1, ht]
  · intro body args s e s' v s'' h1 h2
    simp [evalFunctionF, h1, h2]
  · intro body args s r s' h1 h2
    simp only [evalFunctionF, h1]

/-- Witness for C4: a body that immediately returns 5 makes the call
produce 5, with local mode released afterwards. -/
theorem function_return_value_witness :
    evalFunctionF (evalNode 10) 10 [Node.returnStatement (Node.primitive (Prim.pInt 5))]
        [] stEmpty
      = ERes.ok (PyObj.intV 5) (set_local (set_local stEmpty true) false) :=
  (function_return_value 10).2.1 [Node.returnStatement (Node.primitive (Prim.pInt 5))]
    [] stEmpty (Node.primitive (Prim.pInt 5)) (set_local stEmpty true) (PyObj.intV 5)
    (set_local stEmpty true) rfl rfl

/-- The argument-pairing loop pairs names with values strictly by
position up to the shorter of the two lists (stated with a general
accumulator for the induction). -/
theorem evalArgsZipF_pairs (ev : Node → St → ERes) (fuel : Nat) :
    ∀ (ps vs : List Node) (s : St) (acc args : List (String × PyObj)) (s' : St),
      evalArgsZipF ev fuel ps vs s acc = EResA.ok args s' →
      args.length = acc.length + min ps.length vs.length ∧
      args.map Prod.fst
        = acc.reverse.map Prod.fst
          ++ (ps.take vs.length).map (fun p => (paramName p).getD "") := by
  intro ps
  induction ps with
  | nil =>
    intro vs s acc args s' h
    simp only [evalArgsZipF, EResA.ok.injEq] at h
    obtain ⟨h1, h2⟩ := h
    subst h1
    simp
  | cons p ps ih =>
    intro vs s acc args s' h
    cases vs with
    | nil =>
      simp only [evalArgsZipF, EResA.ok.injEq] at h
      obtain ⟨h1, h2⟩ := h
      subst h1
      simp
    | cons v vs =>
      simp only [evalArgsZipF] at h
      cases hp : paramName p with
      | none => simp only [hp] at h; cases h
      | some nm =>
        simp only [hp] at h
        cases hf : fullEvalF ev fuel (PyObj.node v) s with
        | ok r s1 =>
          simp only [hf] at h
          obtain ⟨hl, hm⟩ := ih vs s1 ((nm, r) :: acc) args s' h
          constructor
          · simp only [List.length_cons, Nat.succ_min_succ] at hl ⊢
            omega
          · rw [hm]
            simp [hp, List.take_succ_cons]
        | err e s1 => simp only [hf] at h; cases h
        | div => simp only [hf] at h; cases h

/-- C5: a call on a user-defined function pairs the call's argument
expressions with the declared parameter names strictly by position up
to the shorter list (first conjunct: the bound-argument mapping has
min length and carries the first parameter names in order); the
argument mapping is fully evaluated before the body is invoked
(second conjunct: the call is the argument-zip evaluation followed by
the body invocation); extra arguments and unmatched parameters are
dropped without any arity error (concrete conjuncts: `f1(x)` called
with (7, 8) yields 7, `f2(x, y)` called with (7) yields 7, and
`f3(x)` called with () fails only later with the unbound-name lookup
of `x`, not an arity error). -/
theorem call_args_pairing (f : Nat) :
    (∀ (ps vs : List Node) (s : St) (args : List (String × PyObj)) (s' : St),
        evalArgsZipF (evalNode f) f ps vs s [] = EResA.ok args s' →
        args.length = min ps.length vs.length ∧
        args.map Prod.fst = (ps.take vs.length).map (fun p => (paramName p).getD ""))
  ∧ (∀ (nm : Node) (ps : List Node) (s : St) (fps fbody : List Node),
        evalNode f nm s = ERes.ok (PyObj.node (Node.function fps fbody)) s →
        evalNode (f + 1) (Node.functionCall nm ps) s =
          (match evalArgsZipF (evalNode f) f fps ps s [] with
           | EResA.ok args s2 => evalFunctionF (evalNode f) f fbody args s2
           | EResA.err e s2 => ERes.err e s2
           | EResA.div => ERes.div))
  ∧ resValue (evalNode 30 c5Extra stEmpty) = some (PyObj.listV [PyObj.intV 7])
  ∧ resValue (evalNode 30 c5Missing stEmpty) = some (PyObj.listV [PyObj.intV 7])
  ∧ resErr (evalNode 30 c5Unbound stEmpty) = some (Exc.undefinedSymbol "x") := by
  refine ⟨?_, ?_, rfl, rfl, rfl⟩
  · intro ps vs s args s' h
    have := evalArgsZipF_pairs (evalNode f) f ps vs s [] args s' h
    simpa using this
  · intro nm ps s fps fbody h
    simp [evalNode, evalNodeF, h]

/-- Witness for C5: with parameters (x, y) and a single argument 7,
the pairing binds exactly x := 7 (length `min 2 1 = 1`). -/
theorem call_args_pairing_witness :
    evalArgsZipF (evalNode 10) 10
        [Node.identifier false "x", Node.identifier false "y"]
        [Node.primitive (Prim.pInt 7)] stEmpty []
      = EResA.ok [("x", PyObj.intV 7)] stEmpty
    ∧ [("x", (PyObj.intV 7 : PyObj))].length = min 2 1
    ∧ [("x", (PyObj.intV 7 : PyObj))].map Prod.fst = ["x"] :=
  ⟨rfl,
    ((call_args_pairing 10).1 [Node.identifier false "x", Node.identifier false "y"]
        [Node.primitive (Prim.pInt 7)] stEmpty [("x", PyObj.intV 7)] stEmpty rfl).1,
    ((call_args_pairing 10).1 [Node.identifier false "x", Node.identifier false "y"]
        [Node.primitive (Prim.pInt 7)] stEmpty [("x", PyObj.intV 7)] stEmpty rfl).2⟩

/-- C6: `and`/`or` evaluate both operands — the right operand is
evaluated from the left operand's post-state, and its effects
survive into the result state — and combine the values with the
bitwise (`&`/`|`) operators: on integers bitwise AND/OR, on booleans
their boolean forms.  Concretely `1 or g()` (with `g` printing "R"
and returning 2) yields `1 | 2 = 3` and the print runs, where
short-circuit evaluation would yield 1 with no output. -/
theorem and_or_bitwise (f : Nat) :
    (∀ (l r : Node) (s : St) (m n : Int) (s1 s2 : St),
        evalNode f l s = ERes.ok (PyObj.intV m) s1 →
        evalNode f r s1 = ERes.ok (PyObj.intV n) s2 →
        evalNode (f + 1) (Node.binaryOperation l r "and") s
            = ERes.ok (PyObj.intV (Int.land m n)) s2
          ∧ evalNode (f + 1) (Node.binaryOperation l r "or") s
            = ERes.ok (PyObj.intV (Int.lor m n)) s2)
  ∧ (∀ (l r : Node) (s : St) (a b : Bool) (s1 s2 : St),
        evalNode f l s = ERes.ok (PyObj.boolV a) s1 →
        evalNode f r s1 = ERes.ok (PyObj.boolV b) s2 →
        evalNode (f + 1) (Node.binaryOperation l r "and") s
            = ERes.ok (PyObj.boolV (a && b)) s2
          ∧ evalNode (f + 1) (Node.binaryOperation l r "or") s
            = ERes.ok (PyObj.boolV (a || b)) s2)
  ∧ resValue (evalNode 30 c6Prog stEmpty) = some (PyObj.listV [PyObj.intV 3])
  ∧ resOut (evalNode 30 c6Prog stEmpty) = some "R" := by
  have hand : "and" ∈ binOps := by decide
  have hor : "or" ∈ binOps := by decide
  refine ⟨?_, ?_, rfl, rfl⟩
  · intro l r s m n s1 s2 h1 h2
    constructor <;>
      simp [evalNode, evalNodeF, h1, h2, hand, hor, pyApply, pyAnd, pyOr, asIndex]
  · intro l r s a b s1 s2 h1 h2
    constructor <;>
      simp [evalNode, evalNodeF, h1, h2, hand, hor, pyApply, pyAnd, pyOr, asIndex]

/-- Witness for C6: `6 and 3` is `6 & 3 = 2` and `6 or 3` is
`6 | 3 = 7`. -/
theorem and_or_bitwise_witness :
    evalNode 10 (Node.binaryOperation (Node.primitive (Prim.pInt 6))
        (Node.primitive (Prim.pInt 3)) "and") stEmpty
      = ERes.ok (PyObj.intV 2) stEmpty
    ∧ evalNode 10 (Node.binaryOperation (Node.primitive (Prim.pInt 6))
        (Node.primitive (Prim.pInt 3)) "or") stEmpty
      = ERes.ok (PyObj.intV 7) stEmpty := by
  have h := (and_or_bitwise 9).1 (Node.primitive (Prim.pInt 6))
    (Node.primitive (Prim.pInt 3)) stEmpty 6 3 stEmpty stEmpty rfl rfl
  exact ⟨h.1.trans rfl, h.2.trans rfl⟩

/-- C7: when the selected operator raises `TypeError` on the two
evaluated operands, both Binary Operation and Compound Assignment
evaluation fail with the single interpreter Runtime Error, whose
message spells out the left operand's type name and value, the
operator symbol as written (for compound assignment the `OP=` form),
and the right operand's type name and value. -/
theorem operand_type_mismatch_messages (f : Nat) :
    (∀ (l r : Node) (op : String) (s : St) (lv rv : PyObj) (s1 s2 : St),
        op ∈ binOps →
        evalNode f l s = ERes.ok lv s1 →
        evalNode f r s1 = ERes.ok rv s2 →
        pyApply op lv rv = Except.error PyExc.typeError →
        evalNode (f + 1) (Node.binaryOperation l r op) s
          = ERes.err (Exc.interpreterRuntimeError
              ("Unable to apply operation (" ++ typeName lv ++ ": " ++ pyStr lv ++ ") "
                ++ op ++ " (" ++ typeName rv ++ ": " ++ pyStr rv ++ ")")) s2)
  ∧ (∀ (n : String) (m : Node) (op bop : String) (s : St) (lv rv : PyObj) (s1 : St),
        compoundBase op = some bop →
        getsym s n = Except.ok lv →
        evalNode f m s = ERes.ok rv s1 →
        pyApply bop lv rv = Except.error PyExc.typeError →
        evalNode (f + 1) (Node.compoundOperation (Node.identifier false n) m op) s
          = ERes.err (Exc.interpreterRuntimeError
              ("Unable to apply operation (" ++ typeName lv ++ ": " ++ pyStr lv ++ ") "
                ++ op ++ " (" ++ typeName rv ++ ": " ++ pyStr rv ++ ")")) s1) := by
  constructor
  · intro l r op s lv rv s1 s2 hop h1 h2 hpa
    simp [evalNode, evalNodeF, h1, h2, hop, hpa, opErrMsg]
  · intro n m op bop s lv rv s1 hcb hget h1 hpa
    simp [evalNode, evalNodeF, hget, h1, hcb, hpa, opErrMsg]

/-- Witness for C7: `1 + "a"` raises the runtime error with message
`Unable to apply operation (int: 1) + (str: a)`, and the compound
assignment `c += "a"` with `c = 0` raises it with message
`Unable to apply operation (int: 0) += (str: a)`. -/
theorem operand_type_mismatch_messages_witness :
    evalNode 10 (Node.binaryOperation (Node.primitive (Prim.pInt 1))
        (Node.primitive (Prim.pStr "a")) "+") stEmpty
      = ERes.err (Exc.interpreterRuntimeError
          "Unable to apply operation (int: 1) + (str: a)") stEmpty
    ∧ evalNode 10 (Node.compoundOperation (Node.identifier false "c")
        (Node.primitive (Prim.pStr "a")) "+=") stC0
      = ERes.err (Exc.interpreterRuntimeError
          "Unable to apply operation (int: 0) += (str: a)") stC0 := by
  have h1 := (operand_type_mismatch_messages 9).1 (Node.primitive (Prim.pInt 1))
    (Node.primitive (Prim.pStr "a")) "+" stEmpty (PyObj.intV 1) (PyObj.strV "a")
    stEmpty stEmpty (by decide) rfl rfl rfl
  have h2 := (operand_type_mismatch_messages 9).2 "c" (Node.primitive (Prim.pStr "a"))
    "+=" "+" stC0 (PyObj.intV 0) (PyObj.strV "a") stC0 rfl rfl rfl rfl
  exact ⟨h1, h2⟩

/-- C8: invoking a user-defined function enters local scope mode and
binds the passed parameters there (third conjunct, and concretely:
calling `g(x){return x}` as `g(2)` with global `x = 1` leaves the
argument binding in the local partition while the global `x` is
untouched), and non-local mode is restored whether the body's
evaluation returns a value (first conjunct) or raises (second
conjunct; concretely a body raising the operand-mismatch error still
ends with local mode off). -/
theorem function_call_scope_restore (f : Nat) :
    (∀ (body : List Node) (args : List (String × PyObj)) (s : St) (v : PyObj) (s' : St),
        evalFunctionF (evalNode f) f body args s = ERes.ok v s' → s'.isLocal = false)
  ∧ (∀ (body : List Node) (args : List (String × PyObj)) (s : St) (e : Exc) (s' : St),
        evalFunctionF (evalNode f) f body args s = ERes.err e s' → s'.isLocal = false)
  ∧ (∀ (args : List (String × PyObj)) (s : St),
        (bindArgsSt args (set_local s true)).isLocal = true)
  ∧ resValue (evalNode 30 c8Ok stEmpty) = some (PyObj.listV [PyObj.intV 2])
  ∧ finalSym "x" (evalNode 30 c8Ok stEmpty) = some (PyObj.intV 1)
  ∧ resLocals (evalNode 30 c8Ok stEmpty) = some [("x", PyObj.intV 2)]
  ∧ resIsLocal (evalNode 30 c8Ok stEmpty) = some false
  ∧ resErr (evalNode 30 c8Err stEmpty)
      = some (Exc.interpreterRuntimeError "Unable to apply operation (int: 1) + (str: a)")
  ∧ resIsLocal (evalNode 30 c8Err stEmpty) = some false := by
  refine ⟨?_, ?_, ?_, rfl, rfl, rfl, rfl, rfl, rfl⟩
  · intro body args s v s' h
    simp only [evalFunctionF] at h
    repeat' split at h
    all_goals first | (cases h; rfl) | cases h
  · intro body args s e s' h
    simp only [evalFunctionF] at h
    repeat' split at h
    all_goals first | (cases h; rfl) | cases h
  · intro args s
    rw [bindArgsSt_isLocal]
    rfl

/-- Witness for C8: a body raising the operand-mismatch error exits
the call with local mode released. -/
theorem function_call_scope_restore_witness :
    evalFunctionF (evalNode 10) 10
        [Node.binaryOperation (Node.primitive (Prim.pInt 1))
          (Node.primitive (Prim.pStr "a")) "+"] [] stEmpty
      = ERes.err (Exc.interpreterRuntimeError
          "Unable to apply operation (int: 1) + (str: a)")
          (set_local (set_local stEmpty true) false)
    ∧ (set_local (set_local stEmpty true) false).isLocal = false :=
  ⟨rfl,
    (function_call_scope_restore 10).2.1
      [Node.binaryOperation (Node.primitive (Prim.pInt 1))
        (Node.primitive (Prim.pStr "a")) "+"] [] stEmpty
      (Exc.interpreterRuntimeError "Unable to apply operation (int: 1) + (str: a)")
      (set_local (set_local stEmpty true) false) rfl⟩

/-- C9: the print statement evaluates its item sequence and appends
exactly the concatenation of the items' textual forms to standard
output — no separator between items and no trailing line terminator —
and itself yields no value; concretely items `"a", 1, "b"` emit
exactly `a1b`. -/
theorem print_concatenation (f : Nat) :
    (∀ (items : List Node) (s : St) (xs : List PyObj) (s' : St),
        evalListF (evalNode f) items s = ERes.ok (PyObj.listV xs) s' →
        evalNode (f + 1) (Node.printStatement items) s
          = ERes.ok PyObj.none { s' with out := s'.out ++ String.join (xs.map pyStr) })
  ∧ resOut (evalNode 10 (Node.printStatement c9Items) stEmpty) = some "a1b"
  ∧ resValue (evalNode 10 (Node.printStatement c9Items) stEmpty) = some PyObj.none := by
  refine ⟨?_, rfl, rfl⟩
  intro items s xs s' h
  simp [evalNode, evalNodeF, h]

/-- Witness for C9: the items `"a", 1, "b"` evaluate to the value
list whose textual concatenation `a1b` is appended to the (empty)
output. -/
theorem print_concatenation_witness :
    evalListF (evalNode 9) c9Items stEmpty
      = ERes.ok (PyObj.listV [PyObj.strV "a", PyObj.intV 1, PyObj.strV "b"]) stEmpty
    ∧ evalNode 10 (Node.printStatement c9Items) stEmpty
      = ERes.ok PyObj.none { stEmpty with out := "a1b" } := by
  refine ⟨rfl, ?_⟩
  have h := (print_concatenation 9).1 c9Items stEmpty
    [PyObj.strV "a", PyObj.intV 1, PyObj.strV "b"] stEmpty rfl
  exact h.trans rfl

/-- C10: with both operands evaluated, a Binary Operation raises the
interpreter Runtime Error exactly when applying the operator raises
`TypeError`; dividing (or taking the modulo of) by zero with `/` or
`%` instead escapes as the distinct, uncaught `ZeroDivisionError`
(never the Runtime Error, whose constructor it differs from). -/
theorem runtime_error_iff_type_error (f : Nat) :
    (∀ (l r : Node) (op : String) (s : St) (lv rv : PyObj) (s1 s2 : St),
        op ∈ binOps →
        evalNode f l s = ERes.ok lv s1 →
        evalNode f r s1 = ERes.ok rv s2 →
        ((∃ (msg : String) (s' : St),
            evalNode (f + 1) (Node.binaryOperation l r op) s
              = ERes.err (Exc.interpreterRuntimeError msg) s')
          ↔ pyApply op lv rv = Except.error PyExc.typeError))
  ∧ resErr (evalNode 10 (Node.binaryOperation (Node.primitive (Prim.pInt 1))
      (Node.primitive (Prim.pInt 0)) "/") stEmpty) = some Exc.zeroDivisionError
  ∧ resErr (evalNode 10 (Node.binaryOperation (Node.primitive (Prim.pInt 1))
      (Node.primitive (Prim.pInt 0)) "%") stEmpty) = some Exc.zeroDivisionError
  ∧ (∀ msg : String, Exc.zeroDivisionError ≠ Exc.interpreterRuntimeError msg) := by
  refine ⟨?_, rfl, rfl, fun msg h => by cases h⟩
  intro l r op s lv rv s1 s2 hop h1 h2
  cases hpa : pyApply op lv rv with
  | ok v => simp [evalNode, evalNodeF, h1, h2, hop, hpa]
  | error e =>
    cases e with
    | typeError => simp [evalNode, evalNodeF, h1, h2, hop, hpa]
    | zeroDivisionError => simp [evalNode, evalNodeF, h1, h2, hop, hpa]

/-- Witness for C10: at `1 + "a"` (a `TypeError` application) the
equivalence holds with both sides true. -/
theorem runtime_error_iff_type_error_witness :
    ((∃ (msg : String) (s' : St),
        evalNode 10 (Node.binaryOperation (Node.primitive (Prim.pInt 1))
            (Node.primitive (Prim.pStr "a")) "+") stEmpty
          = ERes.err (Exc.interpreterRuntimeError msg) s')
      ↔ pyApply "+" (PyObj.intV 1) (PyObj.strV "a") = Except.error PyExc.typeError)
    ∧ pyApply "+" (PyObj.intV 1) (PyObj.strV "a") = Except.error PyExc.typeError :=
  ⟨(runtime_error_iff_type_error 9).1 (Node.primitive (Prim.pInt 1))
      (Node.primitive (Prim.pStr "a")) "+" stEmpty (PyObj.intV 1) (PyObj.strV "a")
      stEmpty stEmpty (by decide) rfl rfl,
    rfl⟩
